import Mathlib

/-!
Shallow embedding of the credential/account merge engine of the
anthill-login service (model/account.py), together with spec-modelled
versions of the small store primitives the service calls (the credential
store, the token store, and the external RPC bridges, none of which are
part of the provided source tree), and proofs about the claims of the
specification.

State is a `Store` record (credential links, account rows, the id
counter, and live token records); each operation is a pure function
threading the store, and fallible operations return the store as it was
at the moment of return or raise, so frame properties about errors are
meaningful.
-/

namespace AnthillLogin

/-- Splits a character list at every occurrence of the separator; the
structural-recursion core used by the credential and scope parsers. -/
def splitOnChar (sep : Char) : List Char → List (List Char)
  | [] => [[]]
  | c :: rest =>
    let r := splitOnChar sep rest
    if c = sep then [] :: r
    else
      match r with
      | [] => [[c]]
      | h :: t => (c :: h) :: t

/-- Rejoins the tail pieces of a credential with colons, so that only the
first colon of the original string acts as separator. -/
def joinColon : List (List Char) → List Char
  | [] => []
  | [x] => x
  | x :: y :: t => x ++ ':' :: joinColon (y :: t)

/-- Modelled from the spec: access.parse_account (anthill.common, outside
this repository) splits a credential of the form type:username at the
first colon only; embedded colons in the username are preserved. -/
def parseAccount (credential : String) : String × String :=
  match splitOnChar ':' credential.data with
  | [] => (credential, "")
  | t :: rest => (String.mk t, String.mk (joinColon rest))

/-- The type part of a credential string. -/
def credType (credential : String) : String :=
  (parseAccount credential).1

/-- Modelled from the spec: access.parse_scopes (anthill.common, outside
this repository) parses a comma-separated scope list. -/
def parseScopes (s : String) : List String :=
  ((splitOnChar ',' s.data).filter (fun cs => ¬ cs.isEmpty)).map (fun cs => String.mk cs)

/-- Modelled from the spec: access.validate_token_name (anthill.common,
outside this repository) accepts identifier syntax. -/
def validateTokenName (n : String) : Bool :=
  (¬ n.data.isEmpty) && n.data.all (fun c => c.isAlphanum || c = '_')

/-- AccountModel.LOCAL_CREDENTIALS. -/
def localCredentials : List String := ["anonymous", "dev"]

/-- The persistent state the service manipulates: credential links,
account rows, the auto-increment counter for accounts, and the token
store records, a token being keyed by (account, system name). -/
structure Store where
  links : List (String × Nat)
  accountRows : List Nat
  nextAccount : Nat
  tokens : List (Nat × Option String)
deriving Repr, DecidableEq

/-- Modelled from the spec: CredentialStore.attach — idempotent insert of
a (credential, account) link. -/
def attach (credential : String) (account : Nat) (s : Store) : Store :=
  if (credential, account) ∈ s.links then s
  else { s with links := (credential, account) :: s.links }

/-- Modelled from the spec: CredentialStore.detach — remove the link, a
no-op if absent. -/
def detach (credential : String) (account : Nat) (s : Store) : Store :=
  { s with links := s.links.filter (fun p => ¬ (p.1 = credential ∧ p.2 = account)) }

/-- Modelled from the spec: CredentialStore.list_accounts — all accounts
linked to this credential. -/
def list_accounts (credential : String) (s : Store) : List Nat :=
  (s.links.filter (fun p => p.1 = credential)).map (fun p => p.2)

/-- Modelled from the spec: CredentialStore.list_account_credentials —
the credentials of an account restricted to the given set of types. -/
def list_account_credentials (account : Nat) (types : List String) (s : Store) : List String :=
  (s.links.filter (fun p => p.2 = account ∧ credType p.1 ∈ types)).map (fun p => p.1)

/-- AccountModel.create_account: inserts a fresh account row and returns
the new id. -/
def create_account (s : Store) : Nat × Store :=
  (s.nextAccount,
   { s with accountRows := s.accountRows ++ [s.nextAccount],
            nextAccount := s.nextAccount + 1 })

/-- Modelled from the spec: TokenStore.invalidate_account revokes all
unique tokens recorded for the account. -/
def invalidate_account (account : Nat) (s : Store) : Store :=
  { s with tokens := s.tokens.filter (fun tk => tk.1 ≠ account) }

/-- Modelled from the spec: TokenStore.save records the token for
(account, name), invalidating the previous token with that key. -/
def save_token (account : Nat) (name : Option String) (s : Store) : Store :=
  { s with tokens :=
      (account, name) :: s.tokens.filter (fun tk => ¬ (tk.1 = account ∧ tk.2 = name)) }

/-- Modelled from the spec: a resolve token minted by
AccessTokenGenerator.generate with scopes [resolve_conflict], the
gamespace claim, and the conflicted credential as subject. -/
structure RToken where
  scopes : List String
  gamespace : String
  name : String
deriving Repr, DecidableEq

def genResolveToken (gamespace credential : String) : RToken :=
  ⟨["resolve_conflict"], gamespace, credential⟩

/-- One side of the merge_required accounts payload. -/
structure MergeSide where
  account : Nat
  credential : String
  profile : Option String
deriving Repr, DecidableEq

/-- The accounts payload of a merge_required error. -/
structure MergePayload where
  localSide : MergeSide
  remoteSide : MergeSide
deriving Repr, DecidableEq

/-- AuthenticationError(code, result, **other): the numeric code, the
result id, and the optional payload fields used by the merge engine. -/
structure AuthError where
  code : Nat
  result : String
  info : Option String := none
  resolveToken : Option RToken := none
  payload : Option MergePayload := none
  summary : Option (List (Nat × Option String)) := none
  credentialField : Option String := none
deriving Repr, DecidableEq

/-- The part of a validated access token the merge engine reads: the
bound account and the credential (the token name). -/
structure TokenInfo where
  account : Nat
  name : String
deriving Repr, DecidableEq

/-- The external collaborators consumed over RPC, plus the static
registries: mass_profiles and the social attach_account bridge (none
models an InternalError), the per-account and per-gamespace scope
sources, the social_profile capability of each credential type, the set
of registered credential types, and the JSON parser for the info field
(none models a parse failure or a non-object). -/
structure Env where
  massProfiles : List Nat → Option (Nat → Option String)
  socialAttach : Bool → Option String
  userScopes : String → Nat → Option (List String)
  gamespaceScopes : String → Option String
  socialProfile : String → Bool
  credTypes : List String
  parseInfo : String → Option (List (String × String))

/-- The profile attached to one account by a mass_profiles response; the
empty profile (none) when the request failed or the account is absent. -/
def profileOf (env : Env) (accounts : List Nat) (a : Nat) : Option String :=
  match env.massProfiles accounts with
  | some f => f a
  | none => none

/-- AccountModel.__merge_accounts__ (account.py lines 119-349). The pair
returned carries the store as of the return or raise, so an error branch
that mutated nothing returns the input store unchanged. -/
def mergeAccounts (env : Env) (attachTo : TokenInfo) (credential : String)
    (resolve : Option String) (gamespace : String) (s : Store) :
    Store × Except AuthError Nat :=
  let credentialType := credType credential
  let accountAttach := attachTo.account
  let credentialAttach := attachTo.name
  let credentialMine := credential
  let attachedCredentials := list_account_credentials accountAttach [credentialType] s
  let sameCredential := attachedCredentials.head?
  let accounts := list_accounts credentialMine s
  match sameCredential with
  | some same =>
    if same = credentialMine then
      (s, .ok accountAttach)
    else
      match accounts with
      | [] =>
        let am := create_account s
        let s1 := attach credentialMine am.1 am.2
        let s2 := detach credentialAttach accountAttach s1
        let s3 := attach credentialAttach am.1 s2
        let s4 := invalidate_account accountAttach s3
        (s4, .ok am.1)
      | [accountMine] =>
        let s2 := detach credentialAttach accountAttach s
        let s3 := attach credentialAttach accountMine s2
        let s4 := invalidate_account accountAttach s3
        (s4, .ok accountMine)
      | _ =>
        (s, .error { code := 409, result := "multiple_accounts_attached",
                     info := some "Credential has multiple accounts attached." })
  | none =>
    match accounts with
    | [] =>
      (attach credentialMine accountAttach s, .ok accountAttach)
    | [accountMine] =>
      match resolve with
      | none =>
        let resolveToken := genResolveToken gamespace credential
        let payload : MergePayload :=
          ⟨⟨accountAttach, credentialAttach,
            profileOf env [accountAttach, accountMine] accountAttach⟩,
           ⟨accountMine, credentialMine,
            profileOf env [accountAttach, accountMine] accountMine⟩⟩
        (s, .error { code := 409, result := "merge_required",
                     resolveToken := some resolveToken, payload := some payload })
      | some r =>
        if r = "not_mine" then
          let s1 := detach credentialMine accountMine s
          let s2 := attach credentialMine accountAttach s1
          (s2, .ok accountAttach)
        else if r = "local" then
          let s1 := detach credentialMine accountMine s
          let s2 := attach credentialMine accountAttach s1
          let anonymousCredentials :=
            list_account_credentials accountMine localCredentials s2
          let s3 := anonymousCredentials.foldl (fun st c => attach c accountAttach st) s2
          let s4 := invalidate_account accountMine s3
          (s4, .ok accountAttach)
        else if r = "remote" then
          let s1 := detach credentialAttach accountAttach s
          let s2 := invalidate_account accountAttach s1
          let s3 := attach credentialAttach accountMine s2
          (s3, .ok accountMine)
        else
          (s, .error { code := 400, result := "unknown_merge_option",
                       info := some "Unknown merge option." })
    | _ =>
      (s, .error { code := 409, result := "multiple_accounts_attached",
                   info := some "Credential has multiple accounts attached." })

/-- The per-account summary assembled by
AccountModel.__multiple_accounts_attached__: each conflicting account
with its public profile, the empty profile when unavailable. -/
def accountsSummary (env : Env) (accounts : List Nat) : List (Nat × Option String) :=
  accounts.map (fun a => (a, profileOf env accounts a))

/-- AccountModel.__multiple_accounts_attached__ (account.py lines
351-401): mints a resolve token and raises code 300 with the summary. -/
def multipleAccountsAttachedErr (env : Env) (gamespaceId credential : String)
    (accounts : List Nat) : AuthError :=
  { code := 300, result := "multiple_accounts_attached",
    info := some "Conflict: more than one account attached to this credential.",
    resolveToken := some (genResolveToken gamespaceId credential),
    summary := some (accountsSummary env accounts) }

/-- The account-selection step of AccountModel.authorize (account.py
lines 572-610), entered after the authenticator produced the credential:
merge when attach_to is given, otherwise look the credential up, creating
a fresh account on zero hits and raising the code-300
multiple_accounts_attached error on more than one hit. -/
def authorizeSelect (env : Env) (credential : String) (attachTo : Option TokenInfo)
    (gamespaceId : String) (s : Store) : Store × Except AuthError Nat :=
  match attachTo with
  | some t => mergeAccounts env t credential none gamespaceId s
  | none =>
    match list_accounts credential s with
    | [] =>
      let a := create_account s
      (attach credential a.1 a.2, .ok a.1)
    | [account] => (s, .ok account)
    | accounts => (s, .error (multipleAccountsAttachedErr env gamespaceId credential accounts))

/-- The multiple_accounts_attached branch of AccountModel.resolve_conflict
(account.py lines 971-992): keep resolve_with, detach the credential from
every other linked account; a resolve_with outside the linked set raises
cannot_resolve_conflict. The returned account is the one handed to the
tail authentication. -/
def resolveMultipleAccountsAttached (credential : String) (selectOption : Nat)
    (s : Store) : Store × Except AuthError Nat :=
  let accounts := list_accounts credential s
  if selectOption ∈ accounts then
    let others := accounts.erase selectOption
    (others.foldl (fun st a => detach credential a st) s, .ok selectOption)
  else
    (s, .error { code := 400, result := "cannot_resolve_conflict",
                 info := some "No such account to select." })

/-- The request arguments proceed_authentication reads: as, unique,
should_have, import_profile and info; absence models a missing key. -/
structure AuthArgs where
  authAs : Option String := none
  unique : Option String := none
  shouldHave : Option String := none
  importProfile : Option String := none
  info : Option String := none
deriving Repr, DecidableEq

/-- The auth_as validation at the top of proceed_authentication: the name
is only validated when the argument is present and non-empty (an empty
string is falsy in the source). -/
def authAsCheck (args : AuthArgs) : Bool :=
  match args.authAs with
  | some a => (a = "") || validateTokenName a
  | none => true

/-- The _have_scope closure of proceed_authentication: a wildcard
should_have insists on every scope, otherwise only on the listed ones. -/
def haveScope (shouldHave : String) (scope : String) : Bool :=
  (shouldHave = "*") || (scope ∈ parseScopes shouldHave)

/-- The loop condition of the scope check: a requested scope outside the
resolved scope set that _have_scope insists on. -/
def scopeBlocked (allScopes : List String) (shouldHave : String) (scope : String) : Bool :=
  (scope ∉ allScopes) && haveScope shouldHave scope

/-- Modelled from the spec: the payload of a token minted by
AccessTokenGenerator.generate — scopes, bound account, gamespace, the
optional issuer container, and the credential as subject. -/
structure MintedToken where
  scopes : List String
  account : Nat
  gamespace : String
  issuer : Option String
  subject : String
deriving Repr, DecidableEq

/-- The response dictionary of proceed_authentication. -/
structure AuthResult where
  token : MintedToken
  account : Nat
  credential : String
  scopes : List String
deriving Repr, DecidableEq

/-- The observable outcome of proceed_authentication: the store, the
result or error, the fetch_profile flags passed to the social
attach_account RPC, the profile payloads sent to update_profile, and the
account-info updates applied. -/
structure ProcOut where
  store : Store
  result : Except AuthError AuthResult
  socialCalls : List Bool
  profileUpdates : List String
  infoUpdates : List (Nat × String)
deriving Repr

/-- The final-step token sign of proceed_authentication (account.py lines
774-805): the issuer container is added only for unique tokens, and only
unique tokens are recorded in the token store under (account, as). -/
def mintStep (account : Nat) (credential gamespaceId : String) (authAs : Option String)
    (uniqueTok : Bool) (allowed : List String) (s : Store) : Store × AuthResult :=
  let issuer : Option String := if uniqueTok then some "login" else none
  let tok : MintedToken := ⟨allowed, account, gamespaceId, issuer, credential⟩
  let s1 := if uniqueTok then save_token account authAs s else s
  (s1, ⟨tok, account, credential, allowed⟩)

/-- The resolved scope set of proceed_authentication: the account scopes
(empty when NoScopesFound) updated with the gamespace scopes. -/
def allScopesOf (env : Env) (gamespaceId : String) (account : Nat)
    (gamespaceScopesData : String) : List String :=
  (env.userScopes gamespaceId account).getD [] ++ parseScopes gamespaceScopesData

/-- The tail of proceed_authentication after the credential and gamespace
lookups (account.py lines 699-833): the scope check, the unique-token
gate, the allowed-scope intersection, the account-info update, the token
mint, and the profile update. -/
def scopeAndMint (env : Env) (account : Nat) (credential gamespaceId : String)
    (requestedScopes : List String) (args : AuthArgs) (s : Store)
    (socialCalls : List Bool) (profileData : Option String) (isSocial : Bool)
    (gamespaceScopesData : String) : ProcOut :=
  let shouldHave := args.shouldHave.getD "*"
  let allScopes := allScopesOf env gamespaceId account gamespaceScopesData
  match requestedScopes.find? (scopeBlocked allScopes shouldHave) with
  | some scope =>
    ⟨s, .error { code := 403, result := "scope_restricted",
                 info := some ("User has no scope " ++ scope ++ " asked."),
                 credentialField := some credential }, socialCalls, [], []⟩
  | none =>
    if args.unique.getD "true" = "false" ∧ "auth_non_unique" ∉ allScopes then
      ⟨s, .error { code := 403, result := "non_unique_token_restricted",
                   info := some "Scope auth_non_unique is required.",
                   credentialField := some credential }, socialCalls, [], []⟩
    else
      let uniqueTok : Bool := ¬ (args.unique.getD "true" = "false")
      let allowed := (requestedScopes.filter (fun sc => sc ∈ allScopes)).dedup
      let pUpd := if isSocial then profileData.toList else []
      match args.info with
      | some infoStr =>
        match env.parseInfo infoStr with
        | none =>
          ⟨s, .error { code := 400, result := "bad_account_info",
                       info := some "The field info is corrupted." }, socialCalls, [], []⟩
        | some _ =>
          let ms := mintStep account credential gamespaceId args.authAs uniqueTok allowed s
          ⟨ms.1, .ok ms.2, socialCalls, pUpd, [(account, infoStr)]⟩
      | none =>
        let ms := mintStep account credential gamespaceId args.authAs uniqueTok allowed s
        ⟨ms.1, .ok ms.2, socialCalls, pUpd, []⟩

/-- The fetch_profile flag computed by proceed_authentication and passed
to the social attach_account RPC: the import_profile argument defaults to
the string true, and the flag is the comparison with the string true. -/
def fetchProfileFlag (args : AuthArgs) : Bool :=
  args.importProfile.getD "true" = "true"

/-- AccountModel.proceed_authentication (account.py lines 623-833): the
as-name validation, the credential-type lookup, the social profile fetch
(its failure logged, not fatal), the gamespace scope fetch, then the
scope check and mint tail. -/
def proceedAuthentication (env : Env) (account : Nat) (credential : String)
    (gamespaceId : String) (requestedScopes : List String) (args : AuthArgs)
    (s : Store) : ProcOut :=
  if authAsCheck args then
    if credType credential ∈ env.credTypes then
      let fetchProfile : Bool := fetchProfileFlag args
      let isSocial := env.socialProfile (credType credential)
      let profileData := if isSocial then env.socialAttach fetchProfile else none
      let socialCalls := if isSocial then [fetchProfile] else []
      match env.gamespaceScopes gamespaceId with
      | none =>
        ⟨s, .error { code := 404, result := "no_such_gamespace",
                     info := some "Gamespace was not found." }, socialCalls, [], []⟩
      | some gamespaceScopesData =>
        scopeAndMint env account credential gamespaceId requestedScopes args s
          socialCalls profileData isSocial gamespaceScopesData
    else
      ⟨s, .error { code := 400, result := "unknown_credential",
                   info := some "Unknown credential type." }, [], [], []⟩
  else
    ⟨s, .error { code := 400, result := "bad_auth_as",
                 info := some "Bad auth as name format." }, [], [], []⟩

/-- AccountModel.delete_account (account.py lines 835-855). The source
awaits the bound method credentials_data.list_account_credentials itself
instead of calling it; awaiting a plain method object raises TypeError at
runtime, before any credential is detached and before the account row is
deleted, so the embedding returns that failure with the store untouched. -/
def delete_account (accountId : Nat) (s : Store) : Except String Store :=
  let _ := accountId
  let _ := s
  .error "TypeError: method object is not awaitable"

/-- Modelled from the spec: the intended behavior of delete_account per
the design note — list all credentials of the account, detach each, then
delete the account row. -/
def delete_account_spec (accountId : Nat) (s : Store) : Store :=
  let creds := (s.links.filter (fun p => p.2 = accountId)).map (fun p => p.1)
  let s1 := creds.foldl (fun st c => detach c accountId st) s
  { s1 with accountRows := s1.accountRows.filter (fun a => a ≠ accountId) }

/-! Concrete fixtures used by the witnesses and counterexamples. -/

/-- An environment whose external RPCs all fail or return nothing, with
a fixed registry of non-social credential types and an empty gamespace
scope string for every gamespace. -/
def envNoRpc : Env :=
  { massProfiles := fun _ => none, socialAttach := fun _ => none,
    userScopes := fun _ _ => none, gamespaceScopes := fun _ => some "",
    socialProfile := fun _ => false,
    credTypes := ["anonymous", "dev", "google", "facebook"],
    parseInfo := fun _ => none }

/-- A store where account 2 holds google:g and anonymous:u, account 5
holds facebook:f, and both accounts have one live token. -/
def sC1 : Store :=
  ⟨[("google:g", 2), ("anonymous:u", 2), ("facebook:f", 5)], [2, 5], 6,
   [(2, some "def"), (5, some "def")]⟩

/-- The attach_to token of the C1 and C4 scenarios: account 5 through its
credential facebook:f. -/
def tW : TokenInfo := ⟨5, "facebook:f"⟩

def c2s0 : Store := ⟨[], [], 1, []⟩

/-- Step 1: authorize anonymous:a on the empty store, creating account 1. -/
def c2s1 := authorizeSelect envNoRpc "anonymous:a" none "gs" c2s0

/-- Step 2: authorize google:h, creating account 2. -/
def c2s2 := authorizeSelect envNoRpc "google:h" none "gs" c2s1.1

/-- Step 3: resolve_conflict merge_required with not_mine, moving
google:h onto account 1 (the attach_to token of account 1 via
anonymous:a). -/
def c2s3 := mergeAccounts envNoRpc ⟨1, "anonymous:a"⟩ "google:h" (some "not_mine") "gs" c2s2.1

/-- Step 4: authorize anonymous:m, creating account 3. -/
def c2s4 := authorizeSelect envNoRpc "anonymous:m" none "gs" c2s3.1

/-- Step 5: authorize google:g, creating account 4. -/
def c2s5 := authorizeSelect envNoRpc "google:g" none "gs" c2s4.1

/-- Step 6: resolve_conflict merge_required with not_mine, moving
google:g onto account 3. -/
def c2s6 := mergeAccounts envNoRpc ⟨3, "anonymous:m"⟩ "google:g" (some "not_mine") "gs" c2s5.1

/-- Step 7: attach_account of credential anonymous:m onto the token of
account 1 held through google:h; the target already has a credential of
type anonymous, so the merge moves google:h onto account 3. -/
def c2s7 := mergeAccounts envNoRpc ⟨1, "google:h"⟩ "anonymous:m" none "gs" c2s6.1

/-- Seed of spec scenario 5: google:gg linked to both account 7 and
account 8. -/
def sC3 : Store := ⟨[("google:gg", 7), ("google:gg", 8)], [7, 8], 9, []⟩

/-- The error the authorize path raises on the sC3 seed. -/
def eC3 : AuthError := multipleAccountsAttachedErr envNoRpc "gs" "google:gg" [7, 8]

/-- An environment with a social credential type google whose social
attach_account RPC reports whether the fetch_profile flag was passed as
true. -/
def envC8 : Env :=
  { massProfiles := fun _ => none,
    socialAttach := fun b => if b then some "fetched" else none,
    userScopes := fun _ _ => some [], gamespaceScopes := fun _ => some "",
    socialProfile := fun _ => true, credTypes := ["google"],
    parseInfo := fun _ => none }

/-- The same environment with the social RPC failing outright. -/
def envC8fail : Env := { envC8 with socialAttach := fun _ => none }

/-- Arguments with import_profile set to a string that is neither true
nor false. -/
def argsC8 : AuthArgs := { importProfile := some "yes" }

/-- The empty argument record: every optional argument absent. -/
def argsW : AuthArgs := {}

deriving instance DecidableEq for Except

/-! Helper lemmas about the store primitives. -/

theorem attach_tokens (c : String) (a : Nat) (s : Store) : (attach c a s).tokens = s.tokens := by
  unfold attach; split <;> rfl

theorem detach_tokens (c : String) (a : Nat) (s : Store) : (detach c a s).tokens = s.tokens := rfl

theorem foldl_attach_tokens (l : List String) (a : Nat) (s : Store) :
    (l.foldl (fun st c => attach c a st) s).tokens = s.tokens := by
  induction l generalizing s with
  | nil => rfl
  | cons c t ih => rw [List.foldl_cons, ih, attach_tokens]

/-! The claims. -/

/-- C1: the claim says that a local-resolution merge moves the displaced
account's local-type credentials — afterwards each is linked to
account_attach and no longer linked to account_mine. The source only
attaches them to account_attach and never detaches them from
account_mine, so they end up linked to both accounts. On the store sC1
(google:g and anonymous:u on account 2, facebook:f on account 5), merging
google:g into account 5 with resolve local returns account 5, invalidates
the tokens of account 2 and moves google:g, but leaves anonymous:u linked
to account 2 as well as account 5. -/
theorem C1_local_merge_duplicates_anonymous :
    (mergeAccounts envNoRpc tW "google:g" (some "local") "gs" sC1).2 = Except.ok 5 ∧
    ("google:g", 5) ∈ (mergeAccounts envNoRpc tW "google:g" (some "local") "gs" sC1).1.links ∧
    ("google:g", 2) ∉ (mergeAccounts envNoRpc tW "google:g" (some "local") "gs" sC1).1.links ∧
    ("anonymous:u", 5) ∈ (mergeAccounts envNoRpc tW "google:g" (some "local") "gs" sC1).1.links ∧
    ("anonymous:u", 2) ∈ (mergeAccounts envNoRpc tW "google:g" (some "local") "gs" sC1).1.links ∧
    (mergeAccounts envNoRpc tW "google:g" (some "local") "gs" sC1).1.tokens = [(5, some "def")] := by
  decide

/-- C2: the claim states invariant I1 — after any successful sequence of
authorize and attach_account operations (including resolve_conflict
resolutions) every account has at most one live credential of each type.
The seven-step sequence c2s1..c2s7 starting from the empty store succeeds
at every step, yet leaves account 3 holding both google:g and google:h:
step 7 is an attach_account whose merge moves the attach_to credential
google:h onto the merged credential's account without checking that
account for an existing credential of type google. -/
theorem C2_sequence_violates_unique_type :
    c2s1.2 = Except.ok 1 ∧ c2s2.2 = Except.ok 2 ∧ c2s3.2 = Except.ok 1 ∧
    c2s4.2 = Except.ok 3 ∧ c2s5.2 = Except.ok 4 ∧ c2s6.2 = Except.ok 3 ∧
    c2s7.2 = Except.ok 3 ∧
    ("google:g", 3) ∈ c2s7.1.links ∧ ("google:h", 3) ∈ c2s7.1.links ∧
    credType "google:g" = credType "google:h" ∧ "google:g" ≠ "google:h" := by
  decide

/-- C9: the claim describes the intended delete_account — detach every
credential of the account, then remove the account row. The source awaits
the uncalled method reference instead, which raises TypeError before any
detach or delete, while the spec-modelled intended behavior does leave no
link to the account and removes its row. -/
theorem C9_delete_account_crashes :
    delete_account 2 sC1 = .error "TypeError: method object is not awaitable" ∧
    (∀ p ∈ (delete_account_spec 2 sC1).links, p.2 ≠ 2) ∧
    2 ∉ (delete_account_spec 2 sC1).accountRows := by
  decide

/-- C3 counterexample: the claim says authorize on a credential attached
to more than one account fails multiple_accounts_attached with code 409.
On the seeded store sC3 the authorize path raises it with code 300 (the
resolve token and the per-account summary are attached to that code-300
error). -/
theorem C3_authorize_code_is_300 :
    authorizeSelect envNoRpc "google:gg" none "gs" sC3 = (sC3, Except.error eC3) ∧
    eC3.result = "multiple_accounts_attached" ∧ eC3.code = 300 ∧ eC3.code ≠ 409 ∧
    eC3.resolveToken = some (genResolveToken "gs" "google:gg") ∧
    eC3.summary = some [(7, none), (8, none)] := by
  refine ⟨rfl, rfl, rfl, by decide, rfl, rfl⟩

/-- C3 amended: multiple_accounts_attached carries code 300 when raised
from the direct authorize lookup — together with a freshly minted resolve
token and a per-account summary of the conflicting accounts — and code
409 (an info string only) when raised from the merge state machine, the
path taken by attach_account, authorize with attach_to, and the
merge_required resolver. -/
theorem C3_code_placement (env : Env) (gamespaceId credential : String) (s : Store)
    (a b : Nat) (rest : List Nat)
    (hacc : list_accounts credential s = a :: b :: rest) :
    authorizeSelect env credential none gamespaceId s =
      (s, .error (multipleAccountsAttachedErr env gamespaceId credential (a :: b :: rest))) ∧
    (multipleAccountsAttachedErr env gamespaceId credential (a :: b :: rest)).code = 300 ∧
    (multipleAccountsAttachedErr env gamespaceId credential (a :: b :: rest)).resolveToken =
      some (genResolveToken gamespaceId credential) ∧
    (multipleAccountsAttachedErr env gamespaceId credential (a :: b :: rest)).summary =
      some (accountsSummary env (a :: b :: rest)) ∧
    (∀ (t : TokenInfo) (resolve : Option String),
      (list_account_credentials t.account [credType credential] s).head? ≠ some credential →
      mergeAccounts env t credential resolve gamespaceId s =
        (s, .error { code := 409, result := "multiple_accounts_attached",
                     info := some "Credential has multiple accounts attached." })) := by
  refine ⟨?_, rfl, rfl, rfl, ?_⟩
  · simp only [authorizeSelect, hacc]
  · intro t resolve hhead
    unfold mergeAccounts
    rcases hh : (list_account_credentials t.account [credType credential] s).head? with _ | same
    · simp only [hh, hacc]
    · have hne : ¬ same = credential := fun he => hhead (by rw [hh, he])
      simp only [hh, hacc, hne, if_false]

/-- C3 witness: the amended statement applied to the seeded store sC3. -/
theorem C3_code_placement_witness :
    list_accounts "google:gg" sC3 = 7 :: 8 :: [] ∧
    (authorizeSelect envNoRpc "google:gg" none "gs" sC3 =
      (sC3, .error (multipleAccountsAttachedErr envNoRpc "gs" "google:gg" (7 :: 8 :: []))) ∧
    (multipleAccountsAttachedErr envNoRpc "gs" "google:gg" (7 :: 8 :: [])).code = 300 ∧
    (multipleAccountsAttachedErr envNoRpc "gs" "google:gg" (7 :: 8 :: [])).resolveToken =
      some (genResolveToken "gs" "google:gg") ∧
    (multipleAccountsAttachedErr envNoRpc "gs" "google:gg" (7 :: 8 :: [])).summary =
      some (accountsSummary envNoRpc (7 :: 8 :: [])) ∧
    (∀ (t : TokenInfo) (resolve : Option String),
      (list_account_credentials t.account [credType "google:gg"] sC3).head? ≠ some "google:gg" →
      mergeAccounts envNoRpc t "google:gg" resolve "gs" sC3 =
        (sC3, .error { code := 409, result := "multiple_accounts_attached",
                       info := some "Credential has multiple accounts attached." }))) :=
  ⟨by decide, C3_code_placement envNoRpc "gs" "google:gg" sC3 7 8 [] (by decide)⟩

/-- C4: a merge where the target account has no credential of the merged
credential's type, the merged credential is linked to exactly one
account, and no resolve option was given, fails merge_required with code
409 carrying the freshly minted resolve token and the local/remote
accounts payload, and returns the store exactly as it received it — no
link was attached or detached and no token invalidated before the
raise. -/
theorem C4_merge_required_frame (env : Env) (t : TokenInfo) (credential gamespace : String)
    (s : Store) (m : Nat)
    (hsame : list_account_credentials t.account [credType credential] s = [])
    (hacc : list_accounts credential s = [m]) :
    mergeAccounts env t credential none gamespace s =
      (s, .error { code := 409, result := "merge_required",
                   resolveToken := some (genResolveToken gamespace credential),
                   payload := some
                     ⟨⟨t.account, t.name, profileOf env [t.account, m] t.account⟩,
                      ⟨m, credential, profileOf env [t.account, m] m⟩⟩ }) := by
  unfold mergeAccounts
  simp only [hsame, hacc, List.head?_nil]

/-- C4 witness: merging google:g (linked only to account 2) into account
5 (no google credential) without a resolve option on the store sC1. -/
theorem C4_merge_required_frame_witness :
    list_account_credentials tW.account [credType "google:g"] sC1 = [] ∧
    list_accounts "google:g" sC1 = [2] ∧
    mergeAccounts envNoRpc tW "google:g" none "gs" sC1 =
      (sC1, .error { code := 409, result := "merge_required",
                     resolveToken := some (genResolveToken "gs" "google:g"),
                     payload := some
                       ⟨⟨tW.account, tW.name, profileOf envNoRpc [tW.account, 2] tW.account⟩,
                        ⟨2, "google:g", profileOf envNoRpc [tW.account, 2] 2⟩⟩ }) :=
  ⟨by decide, by decide,
   C4_merge_required_frame envNoRpc tW "google:g" "gs" sC1 2 (by decide) (by decide)⟩

/-- C10: under the same preconditions, the not_mine resolution detaches
the merged credential from account_mine, attaches it to account_attach,
returns account_attach, and invalidates no tokens — the token store is
returned unchanged, so every previously live token of account_mine and
account_attach is still live — whereas the local resolution invalidates
the tokens of the displaced account_mine and the remote resolution those
of the displaced account_attach. -/
theorem C10_not_mine_frame (env : Env) (t : TokenInfo) (credential gamespace : String)
    (s : Store) (m : Nat)
    (hsame : list_account_credentials t.account [credType credential] s = [])
    (hacc : list_accounts credential s = [m]) :
    mergeAccounts env t credential (some "not_mine") gamespace s =
      (attach credential t.account (detach credential m s), .ok t.account) ∧
    (mergeAccounts env t credential (some "not_mine") gamespace s).1.tokens = s.tokens ∧
    (mergeAccounts env t credential (some "local") gamespace s).1.tokens =
      s.tokens.filter (fun tk => tk.1 ≠ m) ∧
    (mergeAccounts env t credential (some "remote") gamespace s).1.tokens =
      s.tokens.filter (fun tk => tk.1 ≠ t.account) := by
  have hnot : mergeAccounts env t credential (some "not_mine") gamespace s =
      (attach credential t.account (detach credential m s), .ok t.account) := by
    unfold mergeAccounts
    simp only [hsame, hacc, List.head?_nil]
    rfl
  refine ⟨hnot, ?_, ?_, ?_⟩
  · rw [hnot, attach_tokens, detach_tokens]
  · unfold mergeAccounts
    simp only [hsame, hacc, List.head?_nil]
    show (invalidate_account m _).tokens = _
    unfold invalidate_account
    rw [foldl_attach_tokens, attach_tokens, detach_tokens]
  · unfold mergeAccounts
    simp only [hsame, hacc, List.head?_nil]
    show (attach _ _ (invalidate_account t.account _)).tokens = _
    rw [attach_tokens]
    unfold invalidate_account
    rw [detach_tokens]

/-- C10 witness: the not_mine, local and remote resolutions applied to
the store sC1 through the account-5 token. -/
theorem C10_not_mine_frame_witness :
    list_account_credentials tW.account [credType "google:g"] sC1 = [] ∧
    list_accounts "google:g" sC1 = [2] ∧
    (mergeAccounts envNoRpc tW "google:g" (some "not_mine") "gs" sC1 =
      (attach "google:g" tW.account (detach "google:g" 2 sC1), .ok tW.account) ∧
    (mergeAccounts envNoRpc tW "google:g" (some "not_mine") "gs" sC1).1.tokens = sC1.tokens ∧
    (mergeAccounts envNoRpc tW "google:g" (some "local") "gs" sC1).1.tokens =
      sC1.tokens.filter (fun tk => tk.1 ≠ 2) ∧
    (mergeAccounts envNoRpc tW "google:g" (some "remote") "gs" sC1).1.tokens =
      sC1.tokens.filter (fun tk => tk.1 ≠ tW.account)) :=
  ⟨by decide, by decide,
   C10_not_mine_frame envNoRpc tW "google:g" "gs" sC1 2 (by decide) (by decide)⟩

theorem foldl_detach_links (c : String) (l : List Nat) (s : Store) :
    (l.foldl (fun st a => detach c a st) s).links =
      s.links.filter (fun p => ¬ (p.1 = c ∧ p.2 ∈ l)) := by
  induction l generalizing s with
  | nil => simp
  | cons a t ih =>
    rw [List.foldl_cons, ih]
    show (s.links.filter _).filter _ = _
    rw [List.filter_filter]
    apply List.filter_congr
    intro p _
    rw [Bool.eq_iff_iff]
    simp only [Bool.and_eq_true, decide_eq_true_eq, List.mem_cons]
    tauto

theorem mem_list_accounts (c : String) (a : Nat) (s : Store) :
    a ∈ list_accounts c s ↔ (c, a) ∈ s.links := by
  unfold list_accounts
  simp only [List.mem_map, List.mem_filter, decide_eq_true_eq]
  constructor
  · rintro ⟨p, ⟨hmem, hc⟩, ha⟩
    have hp : p = (c, a) := Prod.ext hc ha
    rwa [hp] at hmem
  · intro h
    exact ⟨(c, a), ⟨h, rfl⟩, rfl⟩

theorem list_accounts_nodup (c : String) (s : Store) (h : s.links.Nodup) :
    (list_accounts c s).Nodup := by
  unfold list_accounts
  apply List.Nodup.map_on
  · intro x hx y hy hxy
    have hx1 : x.1 = c := of_decide_eq_true (List.mem_filter.mp hx).2
    have hy1 : y.1 = c := of_decide_eq_true (List.mem_filter.mp hy).2
    exact Prod.ext (hx1.trans hy1.symm) hxy
  · exact h.filter _

/-- C7: resolving a multiple_accounts_attached conflict with resolve_with
outside the set of accounts linked to the credential fails
cannot_resolve_conflict with the store unchanged; with resolve_with in
the set, the credential is detached from every other linked account, so
afterwards it is linked exactly to resolve_with, and resolve_with is the
account handed to the tail authentication. -/
theorem C7_resolve_multiple (credential : String) (selectOption : Nat) (s : Store)
    (hnd : s.links.Nodup) :
    (selectOption ∉ list_accounts credential s →
      resolveMultipleAccountsAttached credential selectOption s =
        (s, .error { code := 400, result := "cannot_resolve_conflict",
                     info := some "No such account to select." })) ∧
    (selectOption ∈ list_accounts credential s →
      (resolveMultipleAccountsAttached credential selectOption s).2 = .ok selectOption ∧
      ∀ a : Nat,
        ((credential, a) ∈ (resolveMultipleAccountsAttached credential selectOption s).1.links ↔
          a = selectOption)) := by
  constructor
  · intro h
    unfold resolveMultipleAccountsAttached
    rw [if_neg h]
  · intro h
    have hred : resolveMultipleAccountsAttached credential selectOption s =
        (((list_accounts credential s).erase selectOption).foldl
          (fun st a => detach credential a st) s, .ok selectOption) := by
      unfold resolveMultipleAccountsAttached
      rw [if_pos h]
    refine ⟨by rw [hred], ?_⟩
    intro a
    rw [hred]
    show (credential, a) ∈ (List.foldl _ s _).links ↔ _
    rw [foldl_detach_links, List.mem_filter]
    simp only [decide_eq_true_eq]
    constructor
    · rintro ⟨hmem, hno⟩
      by_contra hne
      exact hno ⟨by trivial, (List.mem_erase_of_ne hne).mpr ((mem_list_accounts _ _ _).mpr hmem)⟩
    · rintro rfl
      refine ⟨(mem_list_accounts _ _ _).mp h, ?_⟩
      rintro ⟨-, hmem⟩
      exact ((list_accounts_nodup credential s hnd).mem_erase_iff.mp hmem).1 rfl

/-- C7 witness: resolving the seeded google:gg conflict keeps account 7
and detaches the link to account 8. -/
theorem C7_resolve_multiple_witness :
    sC3.links.Nodup ∧
    ((7 ∉ list_accounts "google:gg" sC3 →
      resolveMultipleAccountsAttached "google:gg" 7 sC3 =
        (sC3, .error { code := 400, result := "cannot_resolve_conflict",
                       info := some "No such account to select." })) ∧
    (7 ∈ list_accounts "google:gg" sC3 →
      (resolveMultipleAccountsAttached "google:gg" 7 sC3).2 = .ok 7 ∧
      ∀ a : Nat,
        (("google:gg", a) ∈ (resolveMultipleAccountsAttached "google:gg" 7 sC3).1.links ↔
          a = 7))) :=
  ⟨by decide, C7_resolve_multiple "google:gg" 7 sC3 (by decide)⟩

theorem scopeBlocked_true_iff (allScopes : List String) (sh sc : String) :
    scopeBlocked allScopes sh sc = true ↔
      sc ∉ allScopes ∧ (sh = "*" ∨ sc ∈ parseScopes sh) := by
  simp [scopeBlocked, haveScope]

theorem proceedAuth_reduce (env : Env) (account : Nat) (credential gamespaceId : String)
    (requestedScopes : List String) (args : AuthArgs) (s : Store) (gsData : String)
    (hAs : authAsCheck args = true)
    (hType : credType credential ∈ env.credTypes)
    (hGs : env.gamespaceScopes gamespaceId = some gsData) :
    proceedAuthentication env account credential gamespaceId requestedScopes args s =
      scopeAndMint env account credential gamespaceId requestedScopes args s
        (if env.socialProfile (credType credential) then [fetchProfileFlag args] else [])
        (if env.socialProfile (credType credential)
          then env.socialAttach (fetchProfileFlag args) else none)
        (env.socialProfile (credType credential)) gsData := by
  unfold proceedAuthentication
  simp [hAs, hType, hGs]

theorem scopeAndMint_socialCalls (env : Env) (account : Nat)
    (credential gamespaceId : String) (requestedScopes : List String) (args : AuthArgs)
    (s : Store) (socialCalls : List Bool) (profileData : Option String) (isSocial : Bool)
    (gsData : String) :
    (scopeAndMint env account credential gamespaceId requestedScopes args s
      socialCalls profileData isSocial gsData).socialCalls = socialCalls := by
  simp only [scopeAndMint]
  repeat' split
  all_goals rfl

/-- C5: with the as-name, credential-type and gamespace checks passing,
proceed_authentication fails scope_restricted exactly when some requested
scope lies outside the union of the account scopes and the gamespace
scopes while should_have is the wildcard or lists that scope; otherwise
such scopes are dropped, and on success the scopes of the minted token
are exactly the requested scopes intersected with that union. -/
theorem C5_scope_resolution (env : Env) (account : Nat) (credential gamespaceId : String)
    (requestedScopes : List String) (args : AuthArgs) (s : Store) (gsData : String)
    (hAs : authAsCheck args = true)
    (hType : credType credential ∈ env.credTypes)
    (hGs : env.gamespaceScopes gamespaceId = some gsData) :
    ((∃ e, (proceedAuthentication env account credential gamespaceId requestedScopes args s).result
          = .error e ∧ e.result = "scope_restricted") ↔
      ∃ sc ∈ requestedScopes, sc ∉ allScopesOf env gamespaceId account gsData ∧
        (args.shouldHave.getD "*" = "*" ∨ sc ∈ parseScopes (args.shouldHave.getD "*"))) ∧
    (∀ r, (proceedAuthentication env account credential gamespaceId requestedScopes args s).result
          = .ok r →
      ∀ sc, (sc ∈ r.scopes ↔
        sc ∈ requestedScopes ∧ sc ∈ allScopesOf env gamespaceId account gsData)) := by
  rw [proceedAuth_reduce env account credential gamespaceId requestedScopes args s gsData
    hAs hType hGs]
  simp only [scopeAndMint]
  split
  next sc hf =>
    refine ⟨iff_of_true ⟨_, rfl, rfl⟩ ?_, fun r hr => Except.noConfusion hr⟩
    have hb := (scopeBlocked_true_iff _ _ _).mp (List.find?_some hf)
    exact ⟨sc, List.mem_of_find?_eq_some hf, hb.1, hb.2⟩
  next hf =>
    have hnone : ¬ (∃ sc ∈ requestedScopes,
        sc ∉ allScopesOf env gamespaceId account gsData ∧
        (args.shouldHave.getD "*" = "*" ∨ sc ∈ parseScopes (args.shouldHave.getD "*"))) := by
      rintro ⟨sc, hmem, h1, h2⟩
      exact List.find?_eq_none.mp hf sc hmem ((scopeBlocked_true_iff _ _ _).mpr ⟨h1, h2⟩)
    have hscopes : ∀ sc : String,
        sc ∈ (requestedScopes.filter
          (fun x => x ∈ allScopesOf env gamespaceId account gsData)).dedup ↔
        sc ∈ requestedScopes ∧ sc ∈ allScopesOf env gamespaceId account gsData := by
      intro sc
      simp [List.mem_dedup, List.mem_filter]
    split
    next hcond =>
      refine ⟨iff_of_false (fun he => ?_) hnone, fun r hr => Except.noConfusion hr⟩
      obtain ⟨e, he2, hres⟩ := he
      injection he2 with h
      subst h
      exact absurd
        (show ("non_unique_token_restricted" : String) = "scope_restricted" from hres)
        (by decide)
    next hcond =>
      split
      next infoStr hinfo =>
        split
        next hpi =>
          refine ⟨iff_of_false (fun he => ?_) hnone, fun r hr => Except.noConfusion hr⟩
          obtain ⟨e, he2, hres⟩ := he
          injection he2 with h
          subst h
          exact absurd
            (show ("bad_account_info" : String) = "scope_restricted" from hres)
            (by decide)
        next v hpi =>
          refine ⟨iff_of_false (fun he => ?_) hnone, fun r hr => ?_⟩
          · obtain ⟨e, he2, -⟩ := he
            exact Except.noConfusion he2
          · injection hr with h
            subst h
            simpa only [mintStep] using hscopes
      next hinfo =>
        refine ⟨iff_of_false (fun he => ?_) hnone, fun r hr => ?_⟩
        · obtain ⟨e, he2, -⟩ := he
          exact Except.noConfusion he2
        · injection hr with h
          subst h
          simpa only [mintStep] using hscopes

/-- C5 witness: the scope-resolution statement applied to an empty scope
request on the empty store. -/
theorem C5_scope_resolution_witness :
    authAsCheck argsW = true ∧ credType "google:g" ∈ envNoRpc.credTypes ∧
    envNoRpc.gamespaceScopes "gs" = some "" ∧
    (((∃ e, (proceedAuthentication envNoRpc 1 "google:g" "gs" [] argsW c2s0).result
          = .error e ∧ e.result = "scope_restricted") ↔
      ∃ sc ∈ ([] : List String), sc ∉ allScopesOf envNoRpc "gs" 1 "" ∧
        (argsW.shouldHave.getD "*" = "*" ∨ sc ∈ parseScopes (argsW.shouldHave.getD "*"))) ∧
    (∀ r, (proceedAuthentication envNoRpc 1 "google:g" "gs" [] argsW c2s0).result = .ok r →
      ∀ sc, (sc ∈ r.scopes ↔ sc ∈ ([] : List String) ∧ sc ∈ allScopesOf envNoRpc "gs" 1 ""))) :=
  ⟨rfl, by decide, rfl,
   C5_scope_resolution envNoRpc 1 "google:g" "gs" [] argsW c2s0 "" rfl (by decide) rfl⟩

theorem mintStep_issuer (account : Nat) (credential gamespaceId : String)
    (authAs : Option String) (uniqueTok : Bool) (allowed : List String) (s : Store) :
    (mintStep account credential gamespaceId authAs uniqueTok allowed s).2.token.issuer =
      if uniqueTok then some "login" else none := rfl

theorem mintStep_store (account : Nat) (credential gamespaceId : String)
    (authAs : Option String) (uniqueTok : Bool) (allowed : List String) (s : Store) :
    (mintStep account credential gamespaceId authAs uniqueTok allowed s).1 =
      if uniqueTok then save_token account authAs s else s := rfl

/-- C6: with the earlier checks passing and no scope restriction, the
minted token is non-unique exactly when the unique argument is the string
false; a non-unique request without auth_non_unique in the resolved scope
set fails non_unique_token_restricted before minting with the store
untouched; a non-unique request with the scope mints a token that carries
no issuer and is not recorded in the token store; and a unique request
mints a token whose payload carries issuer login and records it in the
token store under (account, as). -/
theorem C6_unique_token (env : Env) (account : Nat) (credential gamespaceId : String)
    (requestedScopes : List String) (args : AuthArgs) (s : Store) (gsData : String)
    (hAs : authAsCheck args = true)
    (hType : credType credential ∈ env.credTypes)
    (hGs : env.gamespaceScopes gamespaceId = some gsData)
    (hScope : requestedScopes.find?
        (scopeBlocked (allScopesOf env gamespaceId account gsData) (args.shouldHave.getD "*"))
      = none)
    (hInfo : ∀ i, args.info = some i → (env.parseInfo i).isSome) :
    (args.unique.getD "true" = "false" →
      "auth_non_unique" ∉ allScopesOf env gamespaceId account gsData →
      (proceedAuthentication env account credential gamespaceId requestedScopes args s).result =
        .error { code := 403, result := "non_unique_token_restricted",
                 info := some "Scope auth_non_unique is required.",
                 credentialField := some credential } ∧
      (proceedAuthentication env account credential gamespaceId requestedScopes args s).store = s) ∧
    (args.unique.getD "true" = "false" →
      "auth_non_unique" ∈ allScopesOf env gamespaceId account gsData →
      ∃ r, (proceedAuthentication env account credential gamespaceId requestedScopes args s).result
          = .ok r ∧ r.token.issuer = none ∧
        (proceedAuthentication env account credential gamespaceId requestedScopes args s).store.tokens
          = s.tokens) ∧
    (¬ args.unique.getD "true" = "false" →
      ∃ r, (proceedAuthentication env account credential gamespaceId requestedScopes args s).result
          = .ok r ∧ r.token.issuer = some "login" ∧
        (proceedAuthentication env account credential gamespaceId requestedScopes args s).store.tokens
          = (save_token account args.authAs s).tokens) := by
  rw [proceedAuth_reduce env account credential gamespaceId requestedScopes args s gsData
    hAs hType hGs]
  simp only [scopeAndMint, hScope]
  refine ⟨?_, ?_, ?_⟩
  · intro hu hn
    rw [if_pos ⟨hu, hn⟩]
    exact ⟨rfl, rfl⟩
  · intro hu hn
    rw [if_neg (fun hc => hc.2 hn)]
    have hdec : (decide ¬ (args.unique.getD "true" = "false")) = false := by
      rw [hu]; decide
    split
    next infoStr hinfo =>
      split
      next hpi => exact absurd (hInfo infoStr hinfo) (by rw [hpi]; decide)
      next v hpi =>
        refine ⟨_, rfl, ?_, ?_⟩
        · rw [mintStep_issuer, hdec]
          rfl
        · rw [mintStep_store, hdec]
          rfl
    next hinfo =>
      refine ⟨_, rfl, ?_, ?_⟩
      · rw [mintStep_issuer, hdec]
        rfl
      · rw [mintStep_store, hdec]
        rfl
  · intro hu
    rw [if_neg (fun hc => hu hc.1)]
    have hdec : (decide ¬ (args.unique.getD "true" = "false")) = true := decide_eq_true hu
    split
    next infoStr hinfo =>
      split
      next hpi => exact absurd (hInfo infoStr hinfo) (by rw [hpi]; decide)
      next v hpi =>
        refine ⟨_, rfl, ?_, ?_⟩
        · rw [mintStep_issuer, hdec]
          rfl
        · rw [mintStep_store, hdec]
          rfl
    next hinfo =>
      refine ⟨_, rfl, ?_, ?_⟩
      · rw [mintStep_issuer, hdec]
        rfl
      · rw [mintStep_store, hdec]
        rfl

/-- C6 witness: the unique-token statement applied to an empty scope
request on the empty store. -/
theorem C6_unique_token_witness :
    authAsCheck argsW = true ∧ credType "google:g" ∈ envNoRpc.credTypes ∧
    envNoRpc.gamespaceScopes "gs" = some "" ∧
    List.find? (scopeBlocked (allScopesOf envNoRpc "gs" 1 "") (argsW.shouldHave.getD "*")) []
      = none ∧
    (∀ i, argsW.info = some i → (envNoRpc.parseInfo i).isSome) ∧
    ((argsW.unique.getD "true" = "false" →
      "auth_non_unique" ∉ allScopesOf envNoRpc "gs" 1 "" →
      (proceedAuthentication envNoRpc 1 "google:g" "gs" [] argsW c2s0).result =
        .error { code := 403, result := "non_unique_token_restricted",
                 info := some "Scope auth_non_unique is required.",
                 credentialField := some "google:g" } ∧
      (proceedAuthentication envNoRpc 1 "google:g" "gs" [] argsW c2s0).store = c2s0) ∧
    (argsW.unique.getD "true" = "false" →
      "auth_non_unique" ∈ allScopesOf envNoRpc "gs" 1 "" →
      ∃ r, (proceedAuthentication envNoRpc 1 "google:g" "gs" [] argsW c2s0).result
          = .ok r ∧ r.token.issuer = none ∧
        (proceedAuthentication envNoRpc 1 "google:g" "gs" [] argsW c2s0).store.tokens
          = c2s0.tokens) ∧
    (¬ argsW.unique.getD "true" = "false" →
      ∃ r, (proceedAuthentication envNoRpc 1 "google:g" "gs" [] argsW c2s0).result
          = .ok r ∧ r.token.issuer = some "login" ∧
        (proceedAuthentication envNoRpc 1 "google:g" "gs" [] argsW c2s0).store.tokens
          = (save_token 1 argsW.authAs c2s0).tokens)) :=
  ⟨rfl, by decide, rfl, rfl, fun i h => Option.noConfusion h,
   C6_unique_token envNoRpc 1 "google:g" "gs" [] argsW c2s0 "" rfl (by decide) rfl rfl
     (fun i h => Option.noConfusion h)⟩

/-- C8 counterexample: the claim says the fetch_profile flag passed to
the social attach_account RPC is true exactly when import_profile differs
from the string false. With import_profile set to the string yes — which
differs from false — the flag actually passed is false, because the
source compares the argument for equality with the string true. -/
theorem C8_flag_counterexample :
    ¬ (((proceedAuthentication envC8 1 "google:u" "gs" [] argsC8 c2s0).socialCalls = [true]) ↔
      argsC8.importProfile ≠ some "false") := by
  decide

/-- C8 amended: for a social credential (after the as-name and
credential-type checks pass), the fetch_profile flag passed to the social
attach_account RPC is exactly the comparison of import_profile with the
string true (absent import_profile means true), and a failing social
RPC does not fail the authentication: when every other check passes, the
result is still a minted token. -/
theorem C8_social_profile_step (env : Env) (account : Nat) (credential gamespaceId : String)
    (requestedScopes : List String) (args : AuthArgs) (s : Store)
    (hAs : authAsCheck args = true)
    (hType : credType credential ∈ env.credTypes)
    (hSocial : env.socialProfile (credType credential) = true) :
    (proceedAuthentication env account credential gamespaceId requestedScopes args s).socialCalls
      = [fetchProfileFlag args] ∧
    (fetchProfileFlag args = true ↔
      (args.importProfile = none ∨ args.importProfile = some "true")) ∧
    (∀ gsData, env.gamespaceScopes gamespaceId = some gsData →
      requestedScopes.find?
          (scopeBlocked (allScopesOf env gamespaceId account gsData) (args.shouldHave.getD "*"))
        = none →
      ¬ (args.unique.getD "true" = "false" ∧
          "auth_non_unique" ∉ allScopesOf env gamespaceId account gsData) →
      (∀ i, args.info = some i → (env.parseInfo i).isSome) →
      env.socialAttach = (fun _ => none) →
      ∃ r, (proceedAuthentication env account credential gamespaceId requestedScopes args s).result
        = .ok r) := by
  refine ⟨?_, ?_, ?_⟩
  · unfold proceedAuthentication
    simp only [hAs, hType, hSocial, if_true]
    cases hg : env.gamespaceScopes gamespaceId with
    | none => simp [hg]
    | some gsData => simp [hg, scopeAndMint_socialCalls]
  · cases hip : args.importProfile with
    | none => simp [fetchProfileFlag, hip]
    | some x => simp [fetchProfileFlag, hip]
  · intro gsData hGs hScope hUnique hInfo hFail
    rw [proceedAuth_reduce env account credential gamespaceId requestedScopes args s gsData
      hAs hType hGs]
    simp only [scopeAndMint, hScope]
    rw [if_neg hUnique]
    split
    next infoStr hinfo =>
      split
      next hpi => exact absurd (hInfo infoStr hinfo) (by rw [hpi]; decide)
      next v hpi => exact ⟨_, rfl⟩
    next hinfo => exact ⟨_, rfl⟩

/-- C8 witness: the amended statement applied to the social environment
whose social RPC fails. -/
theorem C8_social_profile_step_witness :
    authAsCheck argsW = true ∧ credType "google:u" ∈ envC8fail.credTypes ∧
    envC8fail.socialProfile (credType "google:u") = true ∧
    ((proceedAuthentication envC8fail 1 "google:u" "gs" [] argsW c2s0).socialCalls
      = [fetchProfileFlag argsW] ∧
    (fetchProfileFlag argsW = true ↔
      (argsW.importProfile = none ∨ argsW.importProfile = some "true")) ∧
    (∀ gsData, envC8fail.gamespaceScopes "gs" = some gsData →
      List.find? (scopeBlocked (allScopesOf envC8fail "gs" 1 gsData) (argsW.shouldHave.getD "*")) []
        = none →
      ¬ (argsW.unique.getD "true" = "false" ∧
          "auth_non_unique" ∉ allScopesOf envC8fail "gs" 1 gsData) →
      (∀ i, argsW.info = some i → (envC8fail.parseInfo i).isSome) →
      envC8fail.socialAttach = (fun _ => none) →
      ∃ r, (proceedAuthentication envC8fail 1 "google:u" "gs" [] argsW c2s0).result = .ok r)) :=
  ⟨rfl, by decide, rfl,
   C8_social_profile_step envC8fail 1 "google:u" "gs" [] argsW c2s0 rfl (by decide) rfl⟩

end AnthillLogin
